import Mathlib

/-!
Verification of the navdb flight-plan expansion core (src/main.py).

The Python source is shallowly embedded: each Python function becomes an
executable Lean definition over `List Char` / `String` data, Python floats
are idealized as `ℚ`, exceptions become an explicit `Err` sum propagated
through `Except`, and the external geodesic collaborator
(`geographiclib`'s `geod.Inverse`) is an abstract parameter
`dist : WayPoint → WayPoint → ℚ`.
-/

/-- Errors of the program.  Each constructor mirrors one exception class of
the source, plus constructors for the raw Python runtime errors the source
can raise (`KeyError`, `IndexError`, `ValueError`, `AttributeError` on
`None`). -/
inductive Err where
  | elementNotFound (name : String)
  | elementAmbiguous (name : String)
  | notOnAirway (fix awy : String)
  | illegalCharacter (tok : String)
  | unnamedFormat (tok : String)
  | unnamedOutOfBounds (tok : String)
  | wrongAIRACcycle (file : String)
  | keyError (name : String)
  | indexError
  | valueError
  | attributeNone
deriving DecidableEq, Repr

instance {ε α : Type} [DecidableEq ε] [DecidableEq α] : DecidableEq (Except ε α) := fun a b =>
  match a, b with
  | .ok x, .ok y =>
    if h : x = y then .isTrue (by rw [h]) else .isFalse (by intro hh; cases hh; exact h rfl)
  | .ok _, .error _ => .isFalse (by intro h; cases h)
  | .error _, .ok _ => .isFalse (by intro h; cases h)
  | .error x, .error y =>
    if h : x = y then .isTrue (by rw [h]) else .isFalse (by intro hh; cases hh; exact h rfl)

/-- Python slice `l[a:b]` (for non-negative bounds; clamps at the ends). -/
def pySlice (l : List Char) (a b : Nat) : List Char :=
  (l.take b).drop a

/-- Python `str.rstrip()` restricted to whitespace. -/
def pyRstrip (l : List Char) : List Char :=
  (l.reverse.dropWhile Char.isWhitespace).reverse

/-- Python `str.strip()` restricted to whitespace. -/
def pyStrip (l : List Char) : List Char :=
  (l.dropWhile Char.isWhitespace).reverse.dropWhile Char.isWhitespace |>.reverse

/-- Python `str.isdigit()` (ASCII model): nonempty and all digits. -/
def pyIsDigit (l : List Char) : Bool :=
  !l.isEmpty && l.all Char.isDigit

/-- Python `str.isalpha()` (ASCII model): nonempty and all letters. -/
def pyIsAlpha (l : List Char) : Bool :=
  !l.isEmpty && l.all Char.isAlpha

/-- Python `str.isalnum()` (ASCII model): nonempty and all alphanumeric. -/
def pyIsAlnum (l : List Char) : Bool :=
  !l.isEmpty && l.all Char.isAlphanum

/-- Value of a string of decimal digits (used for Python `int`). -/
def digitsVal (l : List Char) : Nat :=
  l.foldl (fun a c => a * 10 + (c.toNat - 48)) 0

/-- Python `float` on an already validated string of digits with at most one
decimal point, idealized as an exact rational. -/
def decStrToRat (l : List Char) : ℚ :=
  let ip := l.takeWhile (fun c => c ≠ '.')
  let fp := (l.dropWhile (fun c => c ≠ '.')).drop 1
  (digitsVal ip : ℚ) + (digitsVal fp : ℚ) / (10 : ℚ) ^ fp.length

/-- Helper for `pySplit`: accumulate the current token (in reverse) while
scanning; whitespace flushes it. -/
def pySplitAux : List Char → List Char → List (List Char)
  | [], cur => if cur.isEmpty then [] else [cur.reverse]
  | c :: cs, cur =>
    if c.isWhitespace then
      if cur.isEmpty then pySplitAux cs [] else cur.reverse :: pySplitAux cs []
    else pySplitAux cs (c :: cur)

/-- Python `str.split()` with no argument: split on whitespace runs,
discarding empty pieces. -/
def pySplit (s : String) : List String :=
  (pySplitAux s.data []).map String.mk

/-- The waypoint entity (`WayPoint` and its subclasses `NavAid`, `Airport`,
`Runway`, `UnnamedWaypoint` differ only in construction and in the `type` /
`descr` fields they store). -/
structure WayPoint where
  name : String
  lat : ℚ
  lon : ℚ
  type : String
  descr : String
deriving DecidableEq, Repr

/-- Coordinate decoding of `UnnamedWaypoint.__init__`: the six fixed-column
layouts selected by exact token length; a check failure raises
`UnnamedFormatError`. -/
def unnamedLatLon (_name : String) : Except Err (ℚ × ℚ) :=
  let cs := _name.data
  let fixlen := cs.length
  -- Honeywell format N1234.5/E16759.9, 15 char + /
  if fixlen = 16 then
    if (cs.get? 0 = some 'N' ∨ cs.get? 0 = some 'S')
        ∧ (cs.get? 8 = some 'E' ∨ cs.get? 8 = some 'W')
        ∧ cs.get? 7 = some '/'
        ∧ cs.get? 5 = some '.'
        ∧ cs.get? 14 = some '.'
        ∧ pyIsDigit (pySlice cs 1 5)
        ∧ pyIsDigit (pySlice cs 6 7)
        ∧ pyIsDigit (pySlice cs 9 14)
        ∧ pyIsDigit (pySlice cs 15 16) then
      let latsgn : ℚ := if cs.get? 0 = some 'S' then -1 else 1
      let lonsgn : ℚ := if cs.get? 8 = some 'W' then -1 else 1
      .ok (latsgn * (decStrToRat (pySlice cs 1 3) + decStrToRat (pySlice cs 3 7) / 60),
           lonsgn * (decStrToRat (pySlice cs 9 12) + decStrToRat (pySlice cs 12 16) / 60))
    else .error (.unnamedFormat _name)
  -- Thales format 1234N/01234E, 11 char + /
  else if fixlen = 12 then
    if (cs.get? 4 = some 'N' ∨ cs.get? 4 = some 'S')
        ∧ (cs.get? 11 = some 'E' ∨ cs.get? 11 = some 'W')
        ∧ cs.get? 5 = some '/'
        ∧ pyIsDigit (pySlice cs 0 4)
        ∧ pyIsDigit (pySlice cs 6 11) then
      let latsgn : ℚ := if cs.get? 4 = some 'S' then -1 else 1
      let lonsgn : ℚ := if cs.get? 11 = some 'W' then -1 else 1
      .ok (latsgn * (decStrToRat (pySlice cs 0 2) + decStrToRat (pySlice cs 2 4) / 60),
           lonsgn * (decStrToRat (pySlice cs 6 9) + decStrToRat (pySlice cs 9 11) / 60))
    else .error (.unnamedFormat _name)
  -- OFP format 1234.5N01234.5E, 15 char
  else if fixlen = 15 then
    if (cs.get? 6 = some 'N' ∨ cs.get? 6 = some 'S')
        ∧ (cs.get? 14 = some 'E' ∨ cs.get? 14 = some 'W')
        ∧ cs.get? 4 = some '.'
        ∧ cs.get? 12 = some '.'
        ∧ pyIsDigit (pySlice cs 0 4)
        ∧ pyIsDigit (pySlice cs 5 6)
        ∧ pyIsDigit (pySlice cs 7 12)
        ∧ pyIsDigit (pySlice cs 13 14) then
      let latsgn : ℚ := if cs.get? 6 = some 'S' then -1 else 1
      let lonsgn : ℚ := if cs.get? 14 = some 'W' then -1 else 1
      .ok (latsgn * (decStrToRat (pySlice cs 0 2) + decStrToRat (pySlice cs 2 6) / 60),
           lonsgn * (decStrToRat (pySlice cs 7 10) + decStrToRat (pySlice cs 10 14) / 60))
    else .error (.unnamedFormat _name)
  -- OFP format 1234N01234E, 11 char
  else if fixlen = 11 then
    if (cs.get? 4 = some 'N' ∨ cs.get? 4 = some 'S')
        ∧ (cs.get? 10 = some 'E' ∨ cs.get? 10 = some 'W')
        ∧ pyIsDigit (pySlice cs 0 4)
        ∧ pyIsDigit (pySlice cs 5 10) then
      let latsgn : ℚ := if cs.get? 4 = some 'S' then -1 else 1
      let lonsgn : ℚ := if cs.get? 10 = some 'W' then -1 else 1
      .ok (latsgn * (decStrToRat (pySlice cs 0 2) + decStrToRat (pySlice cs 2 4) / 60),
           lonsgn * (decStrToRat (pySlice cs 5 8) + decStrToRat (pySlice cs 8 10) / 60))
    else .error (.unnamedFormat _name)
  -- unnamed format H0123, 5 char
  else if fixlen = 5 then
    if cs.get? 0 = some 'H' ∧ pyIsDigit (pySlice cs 1 5) then
      .ok (decStrToRat (pySlice cs 1 3) + 1/2, -(decStrToRat (pySlice cs 3 5)))
    else .error (.unnamedFormat _name)
  -- unnamed format 87N060W, 7 char
  else if fixlen = 7 then
    if (cs.get? 2 = some 'N' ∨ cs.get? 2 = some 'S')
        ∧ (cs.get? 6 = some 'E' ∨ cs.get? 6 = some 'W')
        ∧ pyIsDigit (pySlice cs 0 2)
        ∧ pyIsDigit (pySlice cs 3 6) then
      let latsgn : ℚ := if cs.get? 2 = some 'S' then -1 else 1
      let lonsgn : ℚ := if cs.get? 6 = some 'W' then -1 else 1
      .ok (latsgn * decStrToRat (pySlice cs 0 2), lonsgn * decStrToRat (pySlice cs 3 6))
    else .error (.unnamedFormat _name)
  else .error (.unnamedFormat _name)

/-- `UnnamedWaypoint.__init__`: decode, then bounds-check (coordinates
outside `[-90,90] × [-180,180]` raise `UnnamedOutOfBounds`). -/
def unnamedWaypoint (_name : String) : Except Err WayPoint :=
  match unnamedLatLon _name with
  | .error e => .error e
  | .ok (lat, lon) =>
    if lat < -90 ∨ 90 < lat ∨ lon < -180 ∨ 180 < lon then
      .error (.unnamedOutOfBounds _name)
    else .ok ⟨_name, lat, lon, "uWPT", ""⟩

theorem charVal0 : '0'.toNat = 48 := rfl

theorem charVal1 : '1'.toNat = 49 := rfl

theorem charVal2 : '2'.toNat = 50 := rfl

theorem charVal3 : '3'.toNat = 51 := rfl

theorem charVal4 : '4'.toNat = 52 := rfl

theorem charVal5 : '5'.toNat = 53 := rfl

theorem charVal6 : '6'.toNat = 54 := rfl

theorem charVal7 : '7'.toNat = 55 := rfl

theorem charVal8 : '8'.toNat = 56 := rfl

theorem charVal9 : '9'.toNat = 57 := rfl

/-- Evaluation of the decoder on the Honeywell-format example token. -/
theorem latlon_honeywell_example :
    unnamedLatLon "N1234.5/E16759.9" = .ok (503/40, 100799/600) := by
  simp +decide [unnamedLatLon, pySlice, pyIsDigit, decStrToRat, digitsVal,
    List.takeWhile, List.dropWhile, charVal0, charVal1, charVal2, charVal3, charVal4,
    charVal5, charVal6, charVal7, charVal9]
  norm_num

/-- Evaluation of the decoder on the half-degree example token. -/
theorem latlon_H0123 : unnamedLatLon "H0123" = .ok (3/2, -23) := by
  simp +decide [unnamedLatLon, pySlice, pyIsDigit, decStrToRat, digitsVal,
    List.takeWhile, List.dropWhile, charVal0, charVal1, charVal2, charVal3]
  norm_num

/-- Evaluation of the decoder on the out-of-range 7-character token. -/
theorem latlon_95N200E : unnamedLatLon "95N200E" = .ok (95, 200) := by
  simp +decide [unnamedLatLon, pySlice, pyIsDigit, decStrToRat, digitsVal,
    List.takeWhile, List.dropWhile, charVal0, charVal2, charVal5, charVal9]

/-- The decoded half-degree example waypoint. -/
def wptH0123 : WayPoint := ⟨"H0123", 3/2, -23, "uWPT", ""⟩

/-- `UnnamedWaypoint("H0123")` succeeds, with lat 1.5 and lon -23. -/
theorem unnamedWaypoint_H0123 : unnamedWaypoint "H0123" = .ok wptH0123 := by
  rw [unnamedWaypoint, latlon_H0123]
  norm_num [wptH0123]

/-- C7: the unnamed-waypoint decoder yields lat 12.575 and lon
167 + 599/600 ≈ 167.9983 for "N1234.5/E16759.9", lat 1.5 and lon -23 for
"H0123", and raises the out-of-bounds error for "95N200E". -/
theorem unnamed_decode_examples :
    (unnamedWaypoint "N1234.5/E16759.9" =
      .ok ⟨"N1234.5/E16759.9", 503/40, 100799/600, "uWPT", ""⟩) ∧
    ((503 : ℚ)/40 = 12575/1000 ∧ |(100799 : ℚ)/600 - 1679983/10000| < 1/1000) ∧
    (unnamedWaypoint "H0123" = .ok ⟨"H0123", 3/2, -23, "uWPT", ""⟩) ∧
    (unnamedWaypoint "95N200E" = .error (.unnamedOutOfBounds "95N200E")) := by
  refine ⟨?_, ⟨by norm_num, by rw [abs_sub_lt_iff]; constructor <;> norm_num⟩, ?_, ?_⟩
  · rw [unnamedWaypoint, latlon_honeywell_example]
    norm_num
  · exact unnamedWaypoint_H0123
  · rw [unnamedWaypoint, latlon_95N200E]
    norm_num

/-- Python `list.index` for a present element: index of the first
occurrence (0 when absent, unused in that case — the source raises there). -/
def pyIndex {α : Type} [DecidableEq α] : List α → α → Nat
  | [], _ => 0
  | x :: xs, a => if x = a then 0 else pyIndex xs a + 1

theorem pyIndex_lt {α : Type} [DecidableEq α] (l : List α) (a : α) (h : a ∈ l) :
    pyIndex l a < l.length := by
  induction l with
  | nil => cases h
  | cons x xs ih =>
    rw [pyIndex]
    by_cases hx : x = a
    · simp [hx]
    · have : a ∈ xs := by
        cases h with
        | head => exact absurd rfl hx
        | tail _ h2 => exact h2
      simp [hx, Nat.succ_lt_succ (ih this)]

theorem pyIndex_get {α : Type} [DecidableEq α] (l : List α) (a : α) (h : a ∈ l)
    (hlt : pyIndex l a < l.length) : l.get ⟨pyIndex l a, hlt⟩ = a := by
  induction l with
  | nil => cases h
  | cons x xs ih =>
    by_cases hx : x = a
    · simp [pyIndex, hx]
    · have hmem : a ∈ xs := by
        cases h with
        | head => exact absurd rfl hx
        | tail _ h2 => exact h2
      have harg : pyIndex (x :: xs) a = pyIndex xs a + 1 := by simp [pyIndex, hx]
      have hlt2 : pyIndex xs a < xs.length := pyIndex_lt xs a hmem
      simp only [List.get, harg]
      exact ih hmem hlt2

theorem pyIndex_before {α : Type} [DecidableEq α] (l : List α) (a : α) (j : Nat)
    (hj : j < l.length) (hb : j < pyIndex l a) : l.get ⟨j, hj⟩ ≠ a := by
  induction l generalizing j with
  | nil => cases hj
  | cons x xs ih =>
    by_cases hx : x = a
    · rw [pyIndex, if_pos hx] at hb
      cases hb
    · rw [pyIndex, if_neg hx] at hb
      match j with
      | 0 => simpa using hx
      | j' + 1 =>
        have hj' : j' < xs.length := Nat.lt_of_succ_lt_succ hj
        exact ih j' hj' (Nat.lt_of_succ_lt_succ hb)

/-- Python `range(e, x, step)` for the two steps the source uses
(`1` when `e ≤ x`, `-1` when `e > x`). -/
def rangeIdx (e x : Nat) : List Nat :=
  if e ≤ x then (List.range (x - e)).map (fun k => e + k)
  else (List.range (e - x)).map (fun k => e - k)

theorem rangeIdx_length (e x : Nat) :
    (rangeIdx e x).length = if e ≤ x then x - e else e - x := by
  rw [rangeIdx]
  split <;> simp

theorem rangeIdx_get? (e x k : Nat) (hk : k < (rangeIdx e x).length) :
    (rangeIdx e x).get? k = some (if e ≤ x then e + k else e - k) := by
  rw [rangeIdx_length] at hk
  rw [rangeIdx]
  by_cases h : e ≤ x
  · rw [if_pos h] at hk ⊢
    rw [List.get?_map, List.get?_range hk, Option.map_some', if_pos h]
  · rw [if_neg h] at hk ⊢
    rw [List.get?_map, List.get?_range hk, Option.map_some', if_neg h]

theorem mem_rangeIdx (e x i : Nat) (h : i ∈ rangeIdx e x) :
    (e ≤ i ∧ i < x) ∨ (x < e ∧ i ≤ e) := by
  rw [rangeIdx] at h
  by_cases hle : e ≤ x
  · rw [if_pos hle] at h
    left
    obtain ⟨k, hk, rfl⟩ := List.mem_map.1 h
    rw [List.mem_range] at hk
    omega
  · rw [if_neg hle] at h
    right
    obtain ⟨k, hk, rfl⟩ := List.mem_map.1 h
    rw [List.mem_range] at hk
    omega

theorem mapM_get?_of_bounds {α : Type} (d : α) (idxs : List Nat) (L : List α)
    (hb : ∀ i ∈ idxs, i < L.length) :
    idxs.mapM (fun i => L.get? i) = some (idxs.map (fun i => L.getD i d)) := by
  induction idxs with
  | nil => rfl
  | cons i is ih =>
    have hi : i < L.length := hb i (List.mem_cons_self i is)
    have hg : L.get? i = some (L.getD i d) := by
      rw [List.get?_eq_get hi, List.getD_eq_get L d hi]
    rw [List.mapM_cons, hg, ih (fun j hj => hb j (List.mem_cons_of_mem i hj))]
    rfl

/-- The `Route` (airway) entity: a name with parallel ordered waypoint and
waypoint-name sequences. -/
structure Route where
  name : String
  _wpts : List WayPoint
  _wptnames : List String
deriving DecidableEq, Repr

/-- `Route.addWaypoint`. -/
def Route.addWaypoint (r : Route) (w : WayPoint) : Route :=
  { r with _wpts := r._wpts ++ [w], _wptnames := r._wptnames ++ [w.name] }

/-- `Route.getWaypoints`: directional half-open segment extraction between
the first occurrences of the entry and exit names; a missing name raises
`NotOnAirwayError`; an out-of-range parallel index raises `IndexError`. -/
def Route.getWaypoints (r : Route) (_entry _exit : String) : Except Err (List WayPoint) :=
  if _entry ∈ r._wptnames then
    if _exit ∈ r._wptnames then
      match (rangeIdx (pyIndex r._wptnames _entry) (pyIndex r._wptnames _exit)).mapM
          (fun i => r._wpts.get? i) with
      | some ws => .ok ws
      | none => .error .indexError
    else .error (.notOnAirway _exit r.name)
  else .error (.notOnAirway _entry r.name)

/-- C3: for a route containing both names, `getWaypoints` returns exactly
the waypoints at the indices from the entry index up to but excluding the
exit index, stepping forward when the entry index is at most the exit index
and backward otherwise (so entry = exit yields the empty segment). -/
theorem getWaypoints_halfOpen (r : Route) (_entry _exit : String)
    (hen : _entry ∈ r._wptnames) (hex : _exit ∈ r._wptnames)
    (hpar : r._wptnames.length = r._wpts.length) :
    ∃ l, r.getWaypoints _entry _exit = .ok l ∧
      l.length = (if pyIndex r._wptnames _entry ≤ pyIndex r._wptnames _exit
          then pyIndex r._wptnames _exit - pyIndex r._wptnames _entry
          else pyIndex r._wptnames _entry - pyIndex r._wptnames _exit) ∧
      ∀ k, k < l.length →
        l.get? k = r._wpts.get? (if pyIndex r._wptnames _entry ≤ pyIndex r._wptnames _exit
            then pyIndex r._wptnames _entry + k
            else pyIndex r._wptnames _entry - k) := by
  have he : pyIndex r._wptnames _entry < r._wpts.length := hpar ▸ pyIndex_lt _ _ hen
  have hx : pyIndex r._wptnames _exit < r._wpts.length := hpar ▸ pyIndex_lt _ _ hex
  have hb : ∀ i ∈ rangeIdx (pyIndex r._wptnames _entry) (pyIndex r._wptnames _exit),
      i < r._wpts.length := by
    intro i hi
    rcases mem_rangeIdx _ _ _ hi with h | h <;> omega
  have hmap := mapM_get?_of_bounds ⟨"", 0, 0, "", ""⟩ _ _ hb
  refine ⟨(rangeIdx (pyIndex r._wptnames _entry) (pyIndex r._wptnames _exit)).map
    (fun i => r._wpts.getD i ⟨"", 0, 0, "", ""⟩), ?_, ?_, ?_⟩
  · rw [Route.getWaypoints, if_pos hen, if_pos hex, hmap]
  · rw [List.length_map, rangeIdx_length]
  · intro k hk
    rw [List.length_map] at hk
    rw [List.get?_map, rangeIdx_get? _ _ _ hk]
    have hkr : (rangeIdx (pyIndex r._wptnames _entry) (pyIndex r._wptnames _exit)).get? k =
        some (if pyIndex r._wptnames _entry ≤ pyIndex r._wptnames _exit
          then pyIndex r._wptnames _entry + k
          else pyIndex r._wptnames _entry - k) := rangeIdx_get? _ _ _ hk
    have hmem : (if pyIndex r._wptnames _entry ≤ pyIndex r._wptnames _exit
          then pyIndex r._wptnames _entry + k
          else pyIndex r._wptnames _entry - k) ∈
        rangeIdx (pyIndex r._wptnames _entry) (pyIndex r._wptnames _exit) :=
      List.get?_mem hkr
    have hlt := hb _ hmem
    rw [Option.map_some', List.getD_eq_get _ _ hlt, List.get?_eq_get hlt]

/-- The navigational database: the airway map and the point-candidate map,
modeled as insertion-ordered association lists (CPython dicts preserve
insertion order). -/
structure NavDB where
  _awys : List (String × Route)
  _wpts : List (String × List WayPoint)
deriving DecidableEq, Repr

/-- `NavDB.getFPLelemtype`: the token classifier.  The branch for length-4
tokens beginning "NAT" whose fourth character is not alphabetic returns
`none`: the Python source enters that `elif` arm, fails the inner `if`, and
falls off the function returning `None`.  ("NAT" contained in a length-3
slice is the same as the slice being equal to "NAT".) -/
def getFPLelemtype (db : NavDB) (_elem : String) : Option String :=
  let cs := _elem.data
  let no_aph := (cs.filter (fun c => c.isAlpha)).length
  let no_dig := (cs.filter (fun c => c.isDigit)).length
  let no_dir := (cs.filter (fun c => c == 'N' || c == 'S' || c == 'W' || c == 'E')).length
  let no_tot := cs.length
  -- direct-to keyword
  if _elem = "DCT" then some "dct"
  -- unnamed WPT
  else if no_dir = 2 ∧ (no_tot = 7 ∨ no_tot = 11 ∨ no_tot = 12 ∨ no_tot = 15 ∨ no_tot = 16)
      ∧ 5 ≤ no_dig then some "ufx"
  -- unnamed half-degree WPT Hnnww
  else if no_tot = 5 ∧ cs.get? 0 = some 'H' ∧ no_dig = 4 then some "ufx"
  -- NAT track designator
  else if no_tot = 4 ∧ pySlice cs 0 3 = "NAT".data then
    if (cs.get? 3).any (fun c => c.isAlpha) then some "nat" else none
  -- ICAO airport code
  else if no_tot = 4 ∧ no_dig = 0 then some "apt"
  -- runway designator
  else if (no_tot = 7 ∨ no_tot = 8) ∧ cs.get? 4 = some 'R' ∧ pyIsDigit (pySlice cs 5 7) then
    some "rwy"
  -- unnamed waypoint from database
  else if no_aph = 1 ∧ 4 ≤ no_dig then some "fix"
  -- RNAV WPT or NavAid, less than 6 letters
  else if pyIsAlpha cs ∧ no_tot < 6 then some "fix"
  -- is the name in the Airways list?
  else if (db._awys.lookup _elem).isSome then some "awy"
  -- is the name in the Waypoint list?
  else if (db._wpts.lookup _elem).isSome then some "fix"
  -- anything else must be a procedure
  else some "prc"

/-- C4: evaluation at the failing input.  On the length-4 token "NAT1"
(first three characters "NAT", fourth character a digit) the classifier
returns `none` — no role at all, and in particular not "prc" — for every
database, because the Python function falls off the end of the NAT `elif`
arm and implicitly returns `None`. -/
theorem classify_nat_nonalpha_none (db : NavDB) : getFPLelemtype db "NAT1" = none := rfl

/-- A database in which "NATA" is a known point name. -/
def wptNATA : WayPoint := ⟨"NATA", 10, 20, "WPT", ""⟩

/-- Candidate-map holding only the point "NATA". -/
def dbNATA : NavDB := ⟨[], [("NATA", [wptNATA])]⟩

/-- C5 counterexample: "NATA" is a 4-character all-alphabetic token with
zero digits (and even a known point name of the database), yet the
classifier returns "nat", not "apt". -/
theorem classify_nata_not_airport :
    getFPLelemtype dbNATA "NATA" = some "nat" ∧
    some "nat" ≠ some "apt" ∧
    "NATA".data.length = 4 ∧
    pyIsAlpha "NATA".data = true ∧
    ("NATA".data.filter (fun c => c.isDigit)).length = 0 ∧
    (dbNATA._wpts.lookup "NATA").isSome = true := by
  decide

/-- C5 (amended): every 4-character all-alphabetic token with zero digits
whose first three characters are not "NAT" classifies as Airport, for every
database — in particular even when the token is a known point name (the
airport rule precedes the database point-name rule). -/
theorem classify_len4_alpha_airport (db : NavDB) (e : String)
    (h4 : e.data.length = 4)
    (_ha : ∀ c ∈ e.data, c.isAlpha = true)
    (hd : ∀ c ∈ e.data, c.isDigit = false)
    (hn : pySlice e.data 0 3 ≠ "NAT".data) :
    getFPLelemtype db e = some "apt" := by
  have hdig : (e.data.filter (fun c => c.isDigit)).length = 0 := by
    have : e.data.filter (fun c => c.isDigit) = [] := by
      rw [List.filter_eq_nil]
      intro c hc
      simp [hd c hc]
    rw [this]
    rfl
  simp only [getFPLelemtype]
  rw [if_neg (fun heq => by rw [heq] at h4; exact absurd h4 (by decide))]
  rw [if_neg (fun hco => by
    obtain ⟨-, hlen, -⟩ := hco
    omega)]
  rw [if_neg (fun hco => by
    obtain ⟨hlen, -⟩ := hco
    omega)]
  rw [if_neg (fun hco => hn hco.2)]
  rw [if_pos ⟨h4, hdig⟩]

/-- A known point named "ABCD". -/
def wptABCD : WayPoint := ⟨"ABCD", 1, 2, "WPT", ""⟩

/-- Database whose candidate map holds the point "ABCD". -/
def dbABCD : NavDB := ⟨[], [("ABCD", [wptABCD])]⟩

/-- C5 witness: "ABCD" is a known point name of `dbABCD` and still
classifies as an airport. -/
theorem classify_len4_alpha_airport_wit : getFPLelemtype dbABCD "ABCD" = some "apt" :=
  classify_len4_alpha_airport dbABCD "ABCD" (by decide) (by decide) (by decide) (by decide)

/-- Python `min` on a list of floats: the smallest value (first argument is
the running minimum).  The `[]` case is junk; Python raises there and the
caller's usage is analyzed separately. -/
def pyListMin : List ℚ → ℚ
  | [] => 0
  | x :: xs => xs.foldl min x

theorem foldl_min_le_init (xs : List ℚ) (a : ℚ) : xs.foldl min a ≤ a := by
  induction xs generalizing a with
  | nil => exact le_refl a
  | cons y ys ih =>
    calc (y :: ys).foldl min a = ys.foldl min (min a y) := rfl
    _ ≤ min a y := ih (min a y)
    _ ≤ a := min_le_left a y

theorem foldl_min_le_mem (xs : List ℚ) (a x : ℚ) (hx : x ∈ xs) : xs.foldl min a ≤ x := by
  induction xs generalizing a with
  | nil => cases hx
  | cons y ys ih =>
    rcases List.mem_cons.1 hx with h | h
    · calc (y :: ys).foldl min a = ys.foldl min (min a y) := rfl
      _ ≤ min a y := foldl_min_le_init ys (min a y)
      _ ≤ y := min_le_right a y
      _ = x := h.symm
    · exact ih (min a y) h

theorem foldl_min_mem (xs : List ℚ) (a : ℚ) : xs.foldl min a = a ∨ xs.foldl min a ∈ xs := by
  induction xs generalizing a with
  | nil => exact Or.inl rfl
  | cons y ys ih =>
    have hstep : (y :: ys).foldl min a = ys.foldl min (min a y) := rfl
    rcases ih (min a y) with h | h
    · rcases min_choice a y with hm | hm
      · exact Or.inl (by rw [hstep, h, hm])
      · exact Or.inr (by rw [hstep, h, hm]; exact List.mem_cons_self y ys)
    · exact Or.inr (List.mem_cons_of_mem y (hstep ▸ h))

theorem pyListMin_le (l : List ℚ) (x : ℚ) (hx : x ∈ l) : pyListMin l ≤ x := by
  match l with
  | [] => cases hx
  | c :: cs =>
    rcases List.mem_cons.1 hx with h | h
    · exact h ▸ foldl_min_le_init cs c
    · exact foldl_min_le_mem cs c x h

theorem pyListMin_mem (l : List ℚ) (h : l ≠ []) : pyListMin l ∈ l := by
  match l with
  | [] => exact absurd rfl h
  | c :: cs =>
    have hdef : pyListMin (c :: cs) = cs.foldl min c := rfl
    rcases foldl_min_mem cs c with h2 | h2
    · rw [hdef, h2]
      exact List.mem_cons_self c cs
    · rw [hdef]
      exact List.mem_cons_of_mem c h2

/-- `NavDB.getClosest`: resolve a name against the candidate map, using the
reference waypoint and the geodesic-distance collaborator `dist` to pick
among several candidates (`wpt_dst.index(min(wpt_dst))` is the first index
attaining the minimal distance). -/
def getClosest (dist : WayPoint → WayPoint → ℚ) (wpts : List (String × List WayPoint))
    (_name : String) (_close_wpt : Option WayPoint) : Except Err WayPoint :=
  match wpts.lookup _name with
  | none => .error (.elementNotFound _name)
  | some wpt_pot =>
    if wpt_pot.length = 1 then
      match wpt_pot.head? with
      | some w => .ok w
      | none => .error .indexError
    else
      match _close_wpt with
      | none => .error (.elementAmbiguous _name)
      | some c =>
        let wpt_dst := wpt_pot.map (fun w => dist w c)
        match wpt_pot.get? (pyIndex wpt_dst (pyListMin wpt_dst)) with
        | some w => .ok w
        | none => .error .valueError

/-- C2: with a name mapping to at least two candidates and a reference
waypoint supplied, `getClosest` returns the candidate whose distance to the
reference is minimal, and among equally-minimal candidates the one at the
smallest (first-inserted) index: every earlier candidate has strictly
larger distance. -/
theorem getClosest_min_first (dist : WayPoint → WayPoint → ℚ)
    (wpts : List (String × List WayPoint)) (_name : String) (ref : WayPoint)
    (pot : List WayPoint) (hl : wpts.lookup _name = some pot) (h2 : 2 ≤ pot.length) :
    ∃ (i : Nat) (hi : i < pot.length),
      getClosest dist wpts _name (some ref) = .ok (pot.get ⟨i, hi⟩) ∧
      (∀ (j : Nat) (hj : j < pot.length),
        dist (pot.get ⟨i, hi⟩) ref ≤ dist (pot.get ⟨j, hj⟩) ref) ∧
      (∀ (j : Nat) (hj : j < pot.length), j < i →
        dist (pot.get ⟨i, hi⟩) ref < dist (pot.get ⟨j, hj⟩) ref) := by
  have hlen : (pot.map (fun w => dist w ref)).length = pot.length := List.length_map pot _
  have hne : pot.map (fun w => dist w ref) ≠ [] := by
    intro hnil
    rw [hnil] at hlen
    simp at hlen
    omega
  have hmem : pyListMin (pot.map (fun w => dist w ref)) ∈ pot.map (fun w => dist w ref) :=
    pyListMin_mem _ hne
  have hi' : pyIndex (pot.map (fun w => dist w ref)) (pyListMin (pot.map (fun w => dist w ref)))
      < (pot.map (fun w => dist w ref)).length := pyIndex_lt _ _ hmem
  have hi : pyIndex (pot.map (fun w => dist w ref)) (pyListMin (pot.map (fun w => dist w ref)))
      < pot.length := hlen ▸ hi'
  have hds : ∀ (j : Nat) (hj : j < pot.length),
      (pot.map (fun w => dist w ref)).get ⟨j, hlen ▸ hj⟩ = dist (pot.get ⟨j, hj⟩) ref := by
    intro j hj
    rw [List.get_eq_getElem, List.get_eq_getElem, List.getElem_map]
  have hmin : (pot.map (fun w => dist w ref)).get ⟨_, hi'⟩
      = pyListMin (pot.map (fun w => dist w ref)) := pyIndex_get _ _ hmem hi'
  refine ⟨_, hi, ?_, ?_, ?_⟩
  · unfold getClosest
    rw [hl]
    have hg : pot.get? (pyIndex (pot.map (fun w => dist w ref))
        (pyListMin (pot.map (fun w => dist w ref)))) = some (pot.get ⟨_, hi⟩) :=
      List.get?_eq_get hi
    simp only [if_neg (by omega : ¬ pot.length = 1), hg]
  · intro j hj
    have h1 : dist (pot.get ⟨_, hi⟩) ref = pyListMin (pot.map (fun w => dist w ref)) := by
      rw [← hds _ hi, hmin]
    have h2' : pyListMin (pot.map (fun w => dist w ref)) ≤ dist (pot.get ⟨j, hj⟩) ref := by
      refine pyListMin_le _ _ ?_
      rw [← hds _ hj]
      exact List.get_mem _ _ _
    rw [h1]
    exact h2'
  · intro j hj hji
    have h1 : dist (pot.get ⟨_, hi⟩) ref = pyListMin (pot.map (fun w => dist w ref)) := by
      rw [← hds _ hi, hmin]
    have hne2 : (pot.map (fun w => dist w ref)).get ⟨j, hlen ▸ hj⟩
        ≠ pyListMin (pot.map (fun w => dist w ref)) :=
      pyIndex_before _ _ j (hlen ▸ hj) hji
    have hle : pyListMin (pot.map (fun w => dist w ref)) ≤ dist (pot.get ⟨j, hj⟩) ref := by
      refine pyListMin_le _ _ ?_
      rw [← hds _ hj]
      exact List.get_mem _ _ _
    rw [h1]
    refine lt_of_le_of_ne hle ?_
    intro heq
    rw [← hds _ hj] at heq
    exact hne2 heq.symm

/-- Constant distance collaborator used for concrete instantiations. -/
def dist0 : WayPoint → WayPoint → ℚ := fun _ _ => 0

/-- First candidate named "AAA". -/
def wptAAA1 : WayPoint := ⟨"AAA", 0, 0, "WPT", ""⟩

/-- Second candidate named "AAA". -/
def wptAAA2 : WayPoint := ⟨"AAA", 50, 50, "WPT", ""⟩

/-- Candidate map with a duplicated name. -/
def dupWpts : List (String × List WayPoint) := [("AAA", [wptAAA1, wptAAA2])]

/-- C2 witness: instantiation at a two-candidate map with a constant
distance function. -/
theorem getClosest_min_first_wit :
    ∃ (i : Nat) (hi : i < [wptAAA1, wptAAA2].length),
      getClosest dist0 dupWpts "AAA" (some wptABCD) = .ok ([wptAAA1, wptAAA2].get ⟨i, hi⟩) ∧
      (∀ (j : Nat) (hj : j < [wptAAA1, wptAAA2].length),
        dist0 ([wptAAA1, wptAAA2].get ⟨i, hi⟩) wptABCD
          ≤ dist0 ([wptAAA1, wptAAA2].get ⟨j, hj⟩) wptABCD) ∧
      (∀ (j : Nat) (hj : j < [wptAAA1, wptAAA2].length), j < i →
        dist0 ([wptAAA1, wptAAA2].get ⟨i, hi⟩) wptABCD
          < dist0 ([wptAAA1, wptAAA2].get ⟨j, hj⟩) wptABCD) :=
  getClosest_min_first dist0 dupWpts "AAA" wptABCD [wptAAA1, wptAAA2] (by decide) (by decide)

/-- Waypoint A of the example airway. -/
def wptA : WayPoint := ⟨"A", 1, 1, "WPT", ""⟩

/-- Waypoint B of the example airway. -/
def wptB : WayPoint := ⟨"B", 2, 2, "WPT", ""⟩

/-- Waypoint C of the example airway. -/
def wptC : WayPoint := ⟨"C", 3, 3, "WPT", ""⟩

/-- Waypoint D of the example airway. -/
def wptD : WayPoint := ⟨"D", 4, 4, "WPT", ""⟩

/-- The example airway with waypoint sequence `[A, B, C, D]`. -/
def routeABCD : Route := ⟨"AWY1", [wptA, wptB, wptC, wptD], ["A", "B", "C", "D"]⟩

/-- C3 witness: instantiation of the half-open extraction theorem on the
route `[A, B, C, D]`, together with the three concrete segments the claim
lists (forward `[A,B,C]`, backward `[D,C,B]`, and the degenerate empty
segment). -/
theorem getWaypoints_halfOpen_wit :
    (∃ l, routeABCD.getWaypoints "A" "D" = .ok l ∧
      l.length = (if pyIndex routeABCD._wptnames "A" ≤ pyIndex routeABCD._wptnames "D"
          then pyIndex routeABCD._wptnames "D" - pyIndex routeABCD._wptnames "A"
          else pyIndex routeABCD._wptnames "A" - pyIndex routeABCD._wptnames "D") ∧
      ∀ k, k < l.length →
        l.get? k = routeABCD._wpts.get?
          (if pyIndex routeABCD._wptnames "A" ≤ pyIndex routeABCD._wptnames "D"
            then pyIndex routeABCD._wptnames "A" + k
            else pyIndex routeABCD._wptnames "A" - k)) ∧
    routeABCD.getWaypoints "A" "D" = .ok [wptA, wptB, wptC] ∧
    routeABCD.getWaypoints "D" "A" = .ok [wptD, wptC, wptB] ∧
    routeABCD.getWaypoints "A" "A" = .ok [] :=
  ⟨getWaypoints_halfOpen routeABCD "A" "D" (by decide) (by decide) (by decide),
    by decide, by decide, by decide⟩

/-- The token-validation condition of `expandFPL`:
`not elem.replace('/','').replace('.','').isalnum() or elem.count('/') > 1`. -/
def badToken (t : String) : Bool :=
  !pyIsAlnum ((t.data.filter (fun c => c ≠ '/')).filter (fun c => c ≠ '.'))
    || decide (1 < t.data.count '/')

/-- Python `_elem[0:4]` on a string. -/
def pyPrefix4 (s : String) : String :=
  String.mk (pySlice s.data 0 4)

/-- The running state of the expansion loop of `expandFPL`. -/
structure ExpState where
  wpts : List WayPoint
  last_wpt : Option WayPoint
  apts_found : Nat
deriving DecidableEq, Repr

/-- The SID/STAR resolution block of the "prc" branch of `expandFPL`:
classify the neighbors and resolve against the first database candidate of
the neighboring airport's 4-character prefix.  The source compares against
"arp" although the classifier produces "apt"; kept exactly as in the
source.  The raw `self._wpts[...]` subscript raises `KeyError` and the
`[0]` subscript `IndexError` (not `ElementNotFoundError`: no `try` here). -/
def procResolve (db : NavDB) (dist : WayPoint → WayPoint → ℚ) (fpl_arr : List String)
    (i : Nat) (st : ExpState) : Except Err (Option WayPoint) :=
  let pelem := getFPLelemtype db (fpl_arr.getD (i - 1) "")
  let nelem := getFPLelemtype db (fpl_arr.getD (i + 1) "")
  -- it's a SID
  if nelem = some "fix" ∧ (pelem = some "rwy" ∨ pelem = some "arp") then
    match db._wpts.lookup (pyPrefix4 (fpl_arr.getD (i - 1) "")) with
    | none => .error (.keyError (pyPrefix4 (fpl_arr.getD (i - 1) "")))
    | some cands =>
      match cands.head? with
      | none => .error .indexError
      | some refw =>
        match getClosest dist db._wpts (fpl_arr.getD (i + 1) "") (some refw) with
        | .error e => .error e
        | .ok w => .ok (some w)
  -- it's a STAR
  else if pelem = some "fix" ∧ (nelem = some "rwy" ∨ nelem = some "arp") then
    match db._wpts.lookup (pyPrefix4 (fpl_arr.getD (i + 1) "")) with
    | none => .error (.keyError (pyPrefix4 (fpl_arr.getD (i + 1) "")))
    | some cands =>
      match cands.head? with
      | none => .error .indexError
      | some refw =>
        match getClosest dist db._wpts (fpl_arr.getD (i - 1) "") (some refw) with
        | .error e => .error e
        | .ok w => .ok (if st.last_wpt = some w then none else some w)
  else .ok none

/-- One iteration of the resolution loop of `NavDB.expandFPL` at index `i`.
`wpt == last_wpt` comparisons model CPython object identity: resolved
waypoints are references into the database (or freshly decoded objects), so
structural equality of the embedded records stands in for identity. -/
def expandStep (db : NavDB) (dist : WayPoint → WayPoint → ℚ) (fpl_arr : List String)
    (i : Nat) (st : ExpState) : Except Err ExpState :=
  let elem := fpl_arr.getD i ""
  let elem_type := getFPLelemtype db elem
  if elem_type = some "awy" ∧ 1 ≤ i ∧ i + 1 < fpl_arr.length then
    match db._awys.lookup elem with
    | none => .error (.elementNotFound elem)
    | some awy =>
      match awy.getWaypoints (fpl_arr.getD (i - 1) "") (fpl_arr.getD (i + 1) "") with
      | .error e => .error e
      | .ok awy_wpts =>
        -- only append waypoints between start and end; then last_wpt = awy_wpts[-1]
        match awy_wpts.getLast? with
        | none => .error .indexError
        | some lastw =>
          .ok { st with wpts := st.wpts ++ awy_wpts.drop 1, last_wpt := some lastw }
  else if elem_type = some "prc" ∧ 1 ≤ i ∧ i + 1 < fpl_arr.length then
    match procResolve db dist fpl_arr i st with
    | .error e => .error e
    | .ok none => .ok st
    | .ok (some w) => .ok { st with wpts := st.wpts ++ [w], last_wpt := some w }
  else if elem_type = some "apt" ∨ elem_type = some "rwy" then
    if st.apts_found < 2 then
      match db._wpts.lookup elem with
      | some (arp :: _) =>
        .ok { wpts := st.wpts ++ [arp], last_wpt := some arp,
              apts_found := st.apts_found + 1 }
      | _ => .error (.elementNotFound elem)
    else .ok st
  else if elem_type = some "ufx" then
    match unnamedWaypoint elem with
    | .error e => .error e
    | .ok wpt =>
      match st.last_wpt with
      | none => .error .attributeNone  -- wpt.distTo(None): AttributeError
      | some lw =>
        if dist wpt lw < 1/10 then .ok st
        else .ok { st with wpts := st.wpts ++ [wpt], last_wpt := some wpt }
  else if elem_type = some "fix" then
    match getClosest dist db._wpts elem st.last_wpt with
    | .error e => .error e
    | .ok wpt =>
      if st.last_wpt = some wpt then .ok st
      else .ok { st with wpts := st.wpts ++ [wpt], last_wpt := some wpt }
  else .ok st

/-- The `for i in range(fpl_sz)` loop of `expandFPL`. -/
def expandLoop (db : NavDB) (dist : WayPoint → WayPoint → ℚ) (fpl_arr : List String) :
    List Nat → ExpState → Except Err ExpState
  | [], st => .ok st
  | i :: rest, st =>
    match expandStep db dist fpl_arr i st with
    | .error e => .error e
    | .ok st2 => expandLoop db dist fpl_arr rest st2

/-- `NavDB.expandFPL`: split, validate every token (raising
`IllegalCharacterError` at the first offending one), then run the
resolution loop.  The final per-element `copy.copy` is the identity in this
value-level embedding. -/
def expandFPL (db : NavDB) (dist : WayPoint → WayPoint → ℚ) (_fpl : String) :
    Except Err (List WayPoint) :=
  let fpl_arr := pySplit _fpl
  match fpl_arr.find? badToken with
  | some e => .error (.illegalCharacter e)
  | none =>
    match expandLoop db dist fpl_arr (List.range fpl_arr.length) ⟨[], none, 0⟩ with
    | .error e => .error e
    | .ok st => .ok st.wpts

/-- Airport EGLL. -/
def egll : WayPoint := ⟨"EGLL", 51, 0, "ARP", ""⟩

/-- Airport EGKK. -/
def egkk : WayPoint := ⟨"EGKK", 51, -1, "ARP", ""⟩

/-- Fix BOGNA. -/
def bogna : WayPoint := ⟨"BOGNA", 50, -1, "WPT", ""⟩

/-- A database containing airports EGLL and EGKK and fix BOGNA. -/
def dbC1 : NavDB := ⟨[], [("EGLL", [egll]), ("EGKK", [egkk]), ("BOGNA", [bogna])]⟩

/-- C1: against a database containing airports EGLL and EGKK and fix BOGNA,
`expandFPL "EGLL DCT BOGNA EGKK"` returns exactly `[EGLL, BOGNA, EGKK]`;
the DCT token contributes no waypoint.  The distance collaborator is
universally quantified: this route consults it nowhere. -/
theorem expand_egll_bogna_egkk (dist : WayPoint → WayPoint → ℚ) :
    expandFPL dbC1 dist "EGLL DCT BOGNA EGKK" = .ok [egll, bogna, egkk] := rfl

/-- Whether an error is the `IllegalCharacterError`. -/
def Err.isIllErr : Err → Bool
  | .illegalCharacter _ => true
  | _ => false

/-- Whether a result is the `IllegalCharacterError` outcome. -/
def isIll {α : Type} : Except Err α → Bool
  | .error e => e.isIllErr
  | .ok _ => false

theorem isIll_false_ne {α : Type} (r : Except Err α) (h : isIll r = false) (t : String) :
    r ≠ .error (.illegalCharacter t) := by
  intro hr
  rw [hr] at h
  cases h

theorem isIll_getWaypoints (r : Route) (a b : String) :
    isIll (r.getWaypoints a b) = false := by
  simp only [Route.getWaypoints]
  repeat' split
  all_goals rfl

theorem isIll_getClosest (dist : WayPoint → WayPoint → ℚ)
    (wpts : List (String × List WayPoint)) (n : String) (c : Option WayPoint) :
    isIll (getClosest dist wpts n c) = false := by
  simp only [getClosest]
  repeat' split
  all_goals rfl

theorem isIll_unnamedLatLon (n : String) : isIll (unnamedLatLon n) = false := by
  simp only [unnamedLatLon]
  repeat' split
  all_goals rfl

theorem isIll_unnamedWaypoint (n : String) : isIll (unnamedWaypoint n) = false := by
  simp only [unnamedWaypoint]
  repeat' split
  all_goals try rfl
  rename_i e heq
  have hsub := isIll_unnamedLatLon n
  rw [heq] at hsub
  exact hsub

theorem isIll_error_abs {α β : Type} (sub : Except Err α) (hs : isIll sub = false)
    (e : Err) (heq : sub = .error e) : isIll (Except.error e : Except Err β) = false := by
  rw [heq] at hs
  exact hs

theorem isIll_procResolve (db : NavDB) (dist : WayPoint → WayPoint → ℚ)
    (fpl_arr : List String) (i : Nat) (st : ExpState) :
    isIll (procResolve db dist fpl_arr i st) = false := by
  simp only [procResolve]
  repeat' split
  all_goals try rfl
  all_goals
    (rename_i heq
     exact isIll_error_abs _ (isIll_getClosest _ _ _ _) _ heq)

theorem isIll_expandStep (db : NavDB) (dist : WayPoint → WayPoint → ℚ)
    (fpl_arr : List String) (i : Nat) (st : ExpState) :
    isIll (expandStep db dist fpl_arr i st) = false := by
  simp only [expandStep]
  repeat' split
  all_goals try rfl
  all_goals
    first
      | (rename_i heq
         exact isIll_error_abs _ (isIll_getWaypoints _ _ _) _ heq)
      | (rename_i heq
         exact isIll_error_abs _ (isIll_procResolve _ _ _ _ _) _ heq)
      | (rename_i heq
         exact isIll_error_abs _ (isIll_unnamedWaypoint _) _ heq)
      | (rename_i heq
         exact isIll_error_abs _ (isIll_getClosest _ _ _ _) _ heq)

theorem isIll_expandLoop (db : NavDB) (dist : WayPoint → WayPoint → ℚ)
    (fpl_arr : List String) (idxs : List Nat) (st : ExpState) :
    isIll (expandLoop db dist fpl_arr idxs st) = false := by
  induction idxs generalizing st with
  | nil => rfl
  | cons i rest ih =>
    simp only [expandLoop]
    split
    · rename_i heq
      have hsub := isIll_expandStep db dist fpl_arr i st
      rw [heq] at hsub
      exact hsub
    · exact ih _

/-- The spec-side description of an offending token: a character outside
alphanumerics, '.', '/'; or more than one '/'; or no character outside
'.' and '/' at all (the stripped token is empty, so `isalnum` fails). -/
def specBad (t : String) : Prop :=
  (∃ c ∈ t.data, ¬(c.isAlphanum = true ∨ c = '.' ∨ c = '/')) ∨
  1 < t.data.count '/' ∨
  (∀ c ∈ t.data, c = '.' ∨ c = '/')

instance : DecidablePred specBad := fun t => by
  unfold specBad
  infer_instance

/-- The code's validation condition agrees with the spec-side description
`specBad`. -/
theorem badToken_iff (t : String) : badToken t = true ↔ specBad t := by
  rw [badToken, specBad, Bool.or_eq_true, decide_eq_true_iff, Bool.not_eq_true']
  rw [pyIsAlnum, Bool.and_eq_false_iff]
  simp only [Bool.not_eq_false, Bool.not_eq_false', List.isEmpty_iff, List.all_eq_false,
    List.filter_eq_nil_iff, List.mem_filter, decide_eq_true_iff, Bool.not_eq_true]
  constructor
  · rintro ((h | h) | h)
    · right; right
      intro c hc
      by_cases hsl : c = '/'
      · exact Or.inr hsl
      · left
        by_contra hd
        exact (h c ⟨hc, hsl⟩) hd
    · left
      obtain ⟨c, ⟨⟨hct, hs⟩, hd⟩, ha⟩ := h
      refine ⟨c, hct, ?_⟩
      rintro (h1 | h1 | h1)
      · rw [ha] at h1; cases h1
      · exact hd h1
      · exact hs h1
    · right; left; exact h
  · rintro (h | h | h)
    · left; right
      obtain ⟨c, hct, hc⟩ := h
      push_neg at hc
      obtain ⟨ha, hd, hs⟩ := hc
      exact ⟨c, ⟨⟨hct, hs⟩, hd⟩, by simpa using ha⟩
    · right; exact h
    · left; left
      rintro a ⟨hat, has⟩ hne
      rcases h a hat with h1 | h1
      · exact hne h1
      · exact has h1

/-- C6 counterexample: the token "AB..CD" contains two '.' characters, yet
`expandFPL` raises no error at all on "EGLL AB..CD" (all '.' are stripped
before the `isalnum` test); and the token "." lies within the claim's
allowed shape (only characters from the allowed set, at most one '/', at
most one '.') yet raises `IllegalCharacterError`. -/
theorem expand_dots_counterexample :
    (expandFPL dbC1 dist0 "EGLL AB..CD" = .ok [egll] ∧ "AB..CD".data.count '.' = 2) ∧
    (expandFPL dbC1 dist0 "EGLL ." = .error (.illegalCharacter ".") ∧
      (∀ c ∈ ".".data, c.isAlphanum = true ∨ c = '.' ∨ c = '/') ∧
      ".".data.count '/' ≤ 1 ∧ ".".data.count '.' ≤ 1) := by
  decide

/-- C6 (amended): `expandFPL` raises `IllegalCharacterError` naming an
offending token exactly when some whitespace-split token contains a
character other than alphanumerics, '.' and '/', or contains more than one
'/', or consists entirely of '.' and '/' characters; the number of '.'
characters is otherwise unrestricted, and when every token is within this
shape no `IllegalCharacterError` is ever raised. -/
theorem expand_illegal_iff (db : NavDB) (dist : WayPoint → WayPoint → ℚ) (_fpl : String) :
    ((∃ t ∈ pySplit _fpl, specBad t) →
      ∃ t ∈ pySplit _fpl, specBad t ∧ expandFPL db dist _fpl = .error (.illegalCharacter t)) ∧
    ((∀ t ∈ pySplit _fpl, ¬ specBad t) →
      ∀ t, expandFPL db dist _fpl ≠ .error (.illegalCharacter t)) := by
  constructor
  · intro hex
    obtain ⟨t0, ht0, hbad⟩ := hex
    have hne : (pySplit _fpl).find? badToken ≠ none := by
      intro hn
      rw [List.find?_eq_none] at hn
      exact hn t0 ht0 ((badToken_iff t0).2 hbad)
    obtain ⟨t1, ht1⟩ := Option.ne_none_iff_exists'.1 hne
    refine ⟨t1, List.mem_of_find?_eq_some ht1, (badToken_iff t1).1 (List.find?_some ht1), ?_⟩
    simp only [expandFPL, ht1]
  · intro hgood t
    have hnone : (pySplit _fpl).find? badToken = none := by
      rw [List.find?_eq_none]
      intro x hx hbx
      exact hgood x hx ((badToken_iff x).1 hbx)
    have hii : isIll (expandFPL db dist _fpl) = false := by
      simp only [expandFPL, hnone]
      split
      · rename_i heq
        exact isIll_error_abs _ (isIll_expandLoop _ _ _ _ _) _ heq
      · rfl
    exact isIll_false_ne _ hii t

/-- C6 witness: a route with an offending token "A@B" raises the error
naming it, and a clean route never yields an `IllegalCharacterError`. -/
theorem expand_illegal_iff_wit :
    (∃ t ∈ pySplit "EGLL A@B", specBad t ∧
      expandFPL dbC1 dist0 "EGLL A@B" = .error (.illegalCharacter t)) ∧
    expandFPL dbC1 dist0 "EGLL BOGNA" ≠ .error (.illegalCharacter "EGLL") :=
  ⟨(expand_illegal_iff dbC1 dist0 "EGLL A@B").1 ⟨"A@B", by decide, by decide⟩,
   (expand_illegal_iff dbC1 dist0 "EGLL BOGNA").2 (by decide) "EGLL"⟩

/-- C10: when the running state has no last-resolved waypoint yet, an
UnnamedFix token that decodes successfully makes the step fail with the
`AttributeError` of `wpt.distTo(None)` — the duplicate-proximity check is
unconditional; consequently `expandFPL` on "DCT H0123" (whose first
resolution-producing token is the unnamed fix) fails for every database and
distance collaborator instead of producing output. -/
theorem expand_first_ufx_fails :
    (∀ (db : NavDB) (dist : WayPoint → WayPoint → ℚ) (fpl_arr : List String) (i : Nat)
      (st : ExpState), st.last_wpt = none →
      getFPLelemtype db (fpl_arr.getD i "") = some "ufx" →
      (∃ w, unnamedWaypoint (fpl_arr.getD i "") = .ok w) →
      expandStep db dist fpl_arr i st = .error .attributeNone) ∧
    (∀ (db : NavDB) (dist : WayPoint → WayPoint → ℚ),
      expandFPL db dist "DCT H0123" = .error .attributeNone) := by
  constructor
  · intro db dist fpl_arr i st hlast htype hok
    obtain ⟨w, hw⟩ := hok
    simp only [expandStep, htype]
    rw [if_neg (fun hco => absurd hco.1 (by decide))]
    rw [if_neg (fun hco => absurd hco.1 (by decide))]
    rw [if_neg (fun hco => hco.elim (fun h => absurd h (by decide)) (fun h => absurd h (by decide)))]
    rw [if_pos trivial, hw, hlast]
  · intro db dist
    have hfind : (pySplit "DCT H0123").find? badToken = none := rfl
    have hrange : List.range (pySplit "DCT H0123").length = [0, 1] := rfl
    have harg : (pySplit "DCT H0123").getD 1 "" = "H0123" := rfl
    have hcls : getFPLelemtype db "H0123" = some "ufx" := rfl
    have hstep0 : expandStep db dist (pySplit "DCT H0123") 0 ⟨[], none, 0⟩ =
        .ok ⟨[], none, 0⟩ := rfl
    have hstep1 : expandStep db dist (pySplit "DCT H0123") 1 ⟨[], none, 0⟩ =
        .error .attributeNone := by
      simp only [expandStep, harg, hcls]
      rw [if_neg (fun hco => absurd hco.1 (by decide))]
      rw [if_neg (fun hco => absurd hco.1 (by decide))]
      rw [if_neg (fun hco => hco.elim (fun h => absurd h (by decide)) (fun h => absurd h (by decide)))]
      rw [if_pos trivial, unnamedWaypoint_H0123]
    simp only [expandFPL, hfind, hrange, expandLoop, hstep0, hstep1]

/-- C10 witness: the step-level theorem applied at the concrete flight plan
"DCT H0123" (the DCT token produces no resolution action, so the unnamed
fix is processed with no last-resolved waypoint), plus the end-to-end call. -/
theorem expand_first_ufx_fails_wit :
    expandStep dbC1 dist0 ["DCT", "H0123"] 1 ⟨[], none, 0⟩ = .error .attributeNone ∧
    expandFPL dbC1 dist0 "DCT H0123" = .error .attributeNone :=
  ⟨expand_first_ufx_fails.1 dbC1 dist0 ["DCT", "H0123"] 1 ⟨[], none, 0⟩ rfl rfl
      ⟨wptH0123, unnamedWaypoint_H0123⟩,
   expand_first_ufx_fails.2 dbC1 dist0⟩

/-- `AIRACcycle`: the validity-cycle record.  Only the cycle number is
modeled: `__eq__` compares cycle numbers alone, and the parsed begin/end
dates are never consulted by the loader's consistency check. -/
structure AIRACcycle where
  cycle : Nat
deriving DecidableEq, Repr

/-- `AIRACcycle.__init__`: `int(_str[15:19])` (a non-numeric field raises
`ValueError`, modeled as an error; `int` tolerates surrounding blanks). -/
def parseAIRAC (l : String) : Except Err AIRACcycle :=
  let s := pyStrip (pySlice l.data 15 19)
  if pyIsDigit s then .ok ⟨digitsVal s⟩ else .error .valueError

/-- The per-comment-line cycle guard common to all five file loops: a
comment line whose columns 1..6 contain "AIRAC" records the cycle on first
sight and otherwise must agree with the recorded one;
`WrongAIRACcycleError` carries `fileLabel`. -/
def checkHeader (fileLabel : String) (airac : Option AIRACcycle) (l : String) :
    Except Err (Option AIRACcycle) :=
  if pySlice l.data 1 6 = "AIRAC".data then
    match parseAIRAC l with
    | .error e => .error e
    | .ok c =>
      match airac with
      | none => .ok (some c)
      | some c0 => if c = c0 then .ok (some c0) else .error (.wrongAIRACcycle fileLabel)
  else .ok airac

/-- Python `dict.setdefault(name, []).append(w)` on the candidate map. -/
def setdefaultAppend (m : List (String × List WayPoint)) (k : String) (w : WayPoint) :
    List (String × List WayPoint) :=
  if (m.lookup k).isSome then
    m.map (fun p => if p.1 = k then (p.1, p.2 ++ [w]) else p)
  else m ++ [(k, [w])]

/-- Python `dict` assignment `d[k] = v` on the airway map. -/
def dictInsert (m : List (String × Route)) (k : String) (v : Route) : List (String × Route) :=
  if (m.lookup k).isSome then
    m.map (fun p => if p.1 = k then (p.1, v) else p)
  else m ++ [(k, v)]

/-- Python `float` on a fixed-width field: strip blanks, optional sign,
digits with at most one decimal point; anything else raises `ValueError`.
(The exotic forms `inf`/`nan`/exponents never occur in these files.) -/
def pyFloat (l : List Char) : Option ℚ :=
  let t := pyStrip l
  match t with
  | [] => none
  | c :: rest =>
    let sgn : ℚ := if c = '-' then -1 else 1
    let ds := if c = '-' ∨ c = '+' then rest else t
    if ds ≠ [] ∧ ds.all (fun d => d.isDigit ∨ d = '.') ∧ ds.count '.' ≤ 1 ∧ ds ≠ ['.'] then
      some (sgn * decStrToRat ds)
    else none

/-- Data-line parser for `wpNavAID.txt`: `NavAid(name, lat, lon, type,
descr)` from fixed columns. -/
def parseNavAidLine (l : String) : Except Err (String × WayPoint) :=
  let cs := l.data
  let name := String.mk (pyRstrip (pySlice cs 24 28))
  match pyFloat (pySlice cs 33 43), pyFloat (pySlice cs 43 54) with
  | some la, some lo =>
    .ok (name, ⟨name, la, lo, String.mk (pyRstrip (pySlice cs 29 33)),
      String.mk (pyRstrip (pySlice cs 0 24))⟩)
  | _, _ => .error .valueError

/-- Data-line parser for `wpNavFIX.txt`: `WayPoint(name, lat, lon)`. -/
def parseFixLine (l : String) : Except Err (String × WayPoint) :=
  let cs := l.data
  let name := String.mk (pyRstrip (pySlice cs 0 5))
  match pyFloat (pySlice cs 29 39), pyFloat (pySlice cs 39 cs.length) with
  | some la, some lo => .ok (name, ⟨name, la, lo, "WPT", ""⟩)
  | _, _ => .error .valueError

/-- Data-line parser for `wpNavAPT.txt`: `Runway((l[24:28]+"R"+l[28:31]).strip(), ...)`. -/
def parseAptLine (l : String) : Except Err (String × WayPoint) :=
  let cs := l.data
  let name := String.mk (pyStrip (pySlice cs 24 28 ++ 'R' :: pySlice cs 28 31))
  match pyFloat (pySlice cs 39 49), pyFloat (pySlice cs 49 60) with
  | some la, some lo =>
    .ok (name, ⟨name, la, lo, "RWY", String.mk (pyStrip (pySlice cs 0 24))⟩)
  | _, _ => .error .valueError

/-- Data-line parser for `airports.dat`: `Airport(l[0:4], lat, lon, "")`. -/
def parseArptLine (l : String) : Except Err (String × WayPoint) :=
  let cs := l.data
  let name := String.mk (pySlice cs 0 4)
  match pyFloat (pySlice cs 4 14), pyFloat (pySlice cs 14 cs.length) with
  | some la, some lo => .ok (name, ⟨name, la, lo, "ARP", ""⟩)
  | _, _ => .error .valueError

/-- One point-entity file loop of `NavDB._load`: comment lines (first
character ';') go through the cycle guard, data lines through the given
parser and into the candidate map. -/
def loadPointFile (fileLabel : String) (parseLine : String → Except Err (String × WayPoint)) :
    List String → Option AIRACcycle × List (String × List WayPoint) →
    Except Err (Option AIRACcycle × List (String × List WayPoint))
  | [], st => .ok st
  | l :: ls, st =>
    if l.data.head? = some ';' then
      match checkHeader fileLabel st.1 l with
      | .error e => .error e
      | .ok a => loadPointFile fileLabel parseLine ls (a, st.2)
    else
      match parseLine l with
      | .error e => .error e
      | .ok (name, w) => loadPointFile fileLabel parseLine ls (st.1, setdefaultAppend st.2 name w)

/-- The airways loop of `NavDB._load`: data lines unpack into
`[name, nr, wptname, lats, lons]` (a different token count raises
`ValueError`), grouped into routes by contiguous equal names; the
unconditional end-of-file `for ... else` flush writes `awys[cawy.name]`,
which on `cawy = None` (zero data lines seen) raises `AttributeError`. -/
def loadRteLines : List String → Option AIRACcycle → Option Route → List (String × Route) →
    Except Err (Option AIRACcycle × List (String × Route))
  | [], airac, cawy, awys =>
    match cawy with
    | none => .error .attributeNone
    | some c => .ok (airac, dictInsert awys c.name c)
  | l :: ls, airac, cawy, awys =>
    if l.data.head? = some ';' then
      match checkHeader "wpNavRTE.txt" airac l with
      | .error e => .error e
      | .ok a => loadRteLines ls a cawy awys
    else
      match pySplit l with
      | [name, _, wptname, lats, lons] =>
        match pyFloat lats.data, pyFloat lons.data with
        | some la, some lo =>
          let w : WayPoint := ⟨wptname, la, lo, "WPT", ""⟩
          let cawy2 := match cawy with
            | none => Route.mk name [] []
            | some c => c
          if cawy2.name = name then
            loadRteLines ls airac (some (cawy2.addWaypoint w)) awys
          else
            loadRteLines ls airac (some ((Route.mk name [] []).addWaypoint w))
              (dictInsert awys cawy2.name cawy2)
        | _, _ => .error .valueError
      | _ => .error .valueError

/-- `NavDB._load` over the five files' line lists (file I/O elided).  The
cycle-mismatch error label of the `wpNavAPT.txt` loop is the string
"wpNavFIX.txt" exactly as in the source. -/
def loadDB (navaid fix apt arpt rte : List String) : Except Err NavDB :=
  match loadPointFile "wpNavAID.txt" parseNavAidLine navaid (none, []) with
  | .error e => .error e
  | .ok st1 =>
    match loadPointFile "wpNavFIX.txt" parseFixLine fix st1 with
    | .error e => .error e
    | .ok st2 =>
      match loadPointFile "wpNavFIX.txt" parseAptLine apt st2 with
      | .error e => .error e
      | .ok st3 =>
        match loadPointFile "airports.dat" parseArptLine arpt st3 with
        | .error e => .error e
        | .ok st4 =>
          match loadRteLines rte st4.1 none [] with
          | .error e => .error e
          | .ok (_, awys) => .ok ⟨awys, st4.2⟩

/-- C8: evaluation at the failing input.  With cycle 2301 recorded from the
navaid file, a cycle-2302 header in the airport/runway file `wpNavAPT.txt`
aborts the load — but the raised error names "wpNavFIX.txt", not the
offending file (the source's `wpNavAPT` loop raises
`WrongAIRACcycleError("wpNavFIX.txt")`).  The fix file and the airports
file, by contrast, are correctly identified. -/
theorem load_cycle_mismatch_label :
    (loadDB [";AIRAC nr      2301  16/JAN/2025 - 12/FEB/2025"] [] [";AIRAC nr      2302  13/FEB/2025 - 12/MAR/2025"] [] [] =
      .error (.wrongAIRACcycle "wpNavFIX.txt")) ∧
    (loadDB [";AIRAC nr      2301  16/JAN/2025 - 12/FEB/2025"] [";AIRAC nr      2302  13/FEB/2025 - 12/MAR/2025"] [] [] [] =
      .error (.wrongAIRACcycle "wpNavFIX.txt")) ∧
    (loadDB [";AIRAC nr      2301  16/JAN/2025 - 12/FEB/2025"] [] [] [";AIRAC nr      2302  13/FEB/2025 - 12/MAR/2025"] [] =
      .error (.wrongAIRACcycle "airports.dat")) := by
  decide

theorem loadRte_comments_no_ok (rte : List String)
    (hc : ∀ l ∈ rte, l.data.head? = some ';') (a : Option AIRACcycle)
    (r : Option AIRACcycle × List (String × Route)) :
    loadRteLines rte a none [] ≠ .ok r := by
  induction rte generalizing a with
  | nil =>
    intro h
    cases h
  | cons l ls ih =>
    intro h
    rw [loadRteLines, if_pos (hc l (List.mem_cons_self l ls))] at h
    revert h
    split
    · intro h
      cases h
    · intro h
      exact ih (fun x hx => hc x (List.mem_cons_of_mem l hx)) _ h

theorem loadRte_comments_attr (rte : List String)
    (hc : ∀ l ∈ rte, l.data.head? = some ';')
    (hna : ∀ l ∈ rte, pySlice l.data 1 6 ≠ "AIRAC".data) (a : Option AIRACcycle) :
    loadRteLines rte a none [] = .error .attributeNone := by
  induction rte generalizing a with
  | nil => rfl
  | cons l ls ih =>
    rw [loadRteLines, if_pos (hc l (List.mem_cons_self l ls))]
    have hch : checkHeader "wpNavRTE.txt" a l = .ok a := by
      rw [checkHeader, if_neg (hna l (List.mem_cons_self l ls))]
    rw [hch]
    exact ih (fun x hx => hc x (List.mem_cons_of_mem l hx))
      (fun x hx => hna x (List.mem_cons_of_mem l hx)) a

theorem loadDB_empty4 (rte : List String) :
    loadDB [] [] [] [] rte =
      match loadRteLines rte none none [] with
      | .error e => .error e
      | .ok (_, awys) => .ok ⟨awys, []⟩ := rfl

/-- C9: an airways file whose lines are all comments (or that has no lines
at all) never yields a database — in particular not one with an empty
airway map: the unconditional end-of-file flush runs with no open Route.
When no line is an AIRAC header the failure is exactly the `AttributeError`
of `awys[cawy.name]` on `cawy = None`. -/
theorem load_empty_airways_fails (rte : List String)
    (hc : ∀ l ∈ rte, l.data.head? = some ';') :
    (∀ db, loadDB [] [] [] [] rte ≠ .ok db) ∧
    ((∀ l ∈ rte, pySlice l.data 1 6 ≠ "AIRAC".data) →
      loadDB [] [] [] [] rte = .error .attributeNone) := by
  constructor
  · intro db h
    rw [loadDB_empty4] at h
    revert h
    split
    · intro h
      cases h
    · rename_i a awys heq
      intro h
      exact loadRte_comments_no_ok rte hc none (a, awys) heq
  · intro hna
    rw [loadDB_empty4, loadRte_comments_attr rte hc hna none]

/-- C9 witness: the loader applied to a comment-only airways file (and to
no airways lines at all, covered by the same theorem at `rte = []`). -/
theorem load_empty_airways_fails_wit :
    loadDB [] [] [] [] [";one comment line"] = .error .attributeNone ∧
    loadDB [] [] [] [] [] = .error .attributeNone :=
  ⟨(load_empty_airways_fails [";one comment line"] (by decide)).2 (by decide),
   (load_empty_airways_fails [] (by decide)).2 (by decide)⟩
